import Mathlib

set_option maxHeartbeats 1000000

namespace Lemmy

/-- Serde's `rename_all = "snake_case"` rule: every uppercase character that is
not the first character gets an underscore inserted before it, and every
character is lowercased (helper recursion over the character list). -/
def snakeCaseGo : List Char → Bool → List Char
  | [], _ => []
  | c :: cs, first =>
    (if c.isUpper && !first then ['_', c.toLower] else [c.toLower]) ++ snakeCaseGo cs false

/-- Serde's `rename_all = "snake_case"` applied to an identifier. -/
def snakeCase (s : String) : String := String.mk (snakeCaseGo s.data true)

/-- Lower-case hexadecimal digit, as emitted by serde_json unicode escapes. -/
def hexDigit (n : Nat) : Char := if n < 10 then Char.ofNat (48 + n) else Char.ofNat (87 + n)

/-- How serde_json escapes one character inside a JSON string literal. -/
def jsonEscapeChar (c : Char) : String :=
  if c = '"' then "\\\""
  else if c = '\\' then "\\\\"
  else if c = '\x08' then "\\b"
  else if c = '\t' then "\\t"
  else if c = '\n' then "\\n"
  else if c = '\x0c' then "\\f"
  else if c = '\r' then "\\r"
  else if c.toNat < 32 then
    "\\u00" ++ String.mk [hexDigit (c.toNat / 16), hexDigit (c.toNat % 16)]
  else String.singleton c

/-- Serde_json rendering of a string as a JSON string literal. -/
def jsonString (s : String) : String :=
  "\"" ++ String.join (s.data.map jsonEscapeChar) ++ "\""

/-- The error taxonomy `LemmyErrorType` from src/crates/utils/src/error.rs,
lines 101-238: 136 variants in declaration order, three of which carry a
single `String` payload. -/
inductive LemmyErrorType where
  | ReportReasonRequired
  | ReportTooLong
  | NotAModerator
  | NotAnAdmin
  | CantBlockYourself
  | CantBlockAdmin
  | CouldntUpdateUser
  | PasswordsDoNotMatch
  | PasswordIncorrect
  | EmailNotVerified
  | EmailRequired
  | CouldntUpdateComment
  | CouldntUpdatePrivateMessage
  | CannotLeaveAdmin
  | NoLinesInHtml
  | SiteMetadataPageIsNotDoctypeHtml
  | PictrsResponseError (payload : String)
  | PictrsPurgeResponseError (payload : String)
  | ImageUrlMissingPathSegments
  | ImageUrlMissingLastPathSegment
  | PictrsApiKeyNotProvided
  | NoContentTypeHeader
  | NotAnImageType
  | NotAModOrAdmin
  | NoAdmins
  | NotTopAdmin
  | NotTopMod
  | NotLoggedIn
  | SiteBan
  | Deleted
  | BannedFromCommunity
  | CouldntFindCommunity
  | PersonIsBlocked
  | DownvotesAreDisabled
  | InstanceIsPrivate
  | InvalidPassword
  | SiteDescriptionLengthOverflow
  | HoneypotFailed
  | RegistrationApplicationIsPending
  | CantEnablePrivateInstanceAndFederationTogether
  | Locked
  | CouldntCreateComment
  | MaxCommentDepthReached
  | NoCommentEditAllowed
  | OnlyAdminsCanCreateCommunities
  | CommunityAlreadyExists
  | LanguageNotAllowed
  | OnlyModsCanPostInCommunity
  | CouldntUpdatePost
  | NoPostEditAllowed
  | CouldntFindPost
  | EditPrivateMessageNotAllowed
  | SiteAlreadyExists
  | ApplicationQuestionRequired
  | InvalidDefaultPostListingType
  | RegistrationClosed
  | RegistrationApplicationAnswerRequired
  | EmailAlreadyExists
  | FederationForbiddenByStrictAllowList
  | PersonIsBannedFromCommunity
  | ObjectIsNotPublic
  | InvalidCommunity
  | CannotCreatePostOrCommentInDeletedOrRemovedCommunity
  | CannotReceivePage
  | NewPostCannotBeLocked
  | OnlyLocalAdminCanRemoveCommunity
  | OnlyLocalAdminCanRestoreCommunity
  | NoIdGiven
  | CouldntFindUsernameOrEmail
  | InvalidQuery
  | ObjectNotLocal
  | PostIsLocked
  | PersonIsBannedFromSite
  | InvalidVoteValue
  | PageDoesNotSpecifyCreator
  | PageDoesNotSpecifyGroup
  | NoCommunityFoundInCc
  | NoEmailSetup
  | EmailSmtpServerNeedsAPort
  | MissingAnEmail
  | RateLimitError
  | InvalidName
  | InvalidDisplayName
  | InvalidMatrixId
  | InvalidPostTitle
  | InvalidBodyField
  | BioLengthOverflow
  | MissingTotpToken
  | IncorrectTotpToken
  | CouldntParseTotpSecret
  | CouldntLikeComment
  | CouldntSaveComment
  | CouldntCreateReport
  | CouldntResolveReport
  | CommunityModeratorAlreadyExists
  | CommunityUserAlreadyBanned
  | CommunityBlockAlreadyExists
  | CommunityFollowerAlreadyExists
  | CouldntUpdateCommunityHiddenStatus
  | PersonBlockAlreadyExists
  | UserAlreadyExists
  | TokenNotFound
  | CouldntLikePost
  | CouldntSavePost
  | CouldntMarkPostAsRead
  | CouldntUpdateCommunity
  | CouldntUpdateReplies
  | CouldntUpdatePersonMentions
  | PostTitleTooLong
  | CouldntCreatePost
  | CouldntCreatePrivateMessage
  | CouldntUpdatePrivate
  | SystemErrLogin
  | CouldntSetAllRegistrationsAccepted
  | CouldntSetAllEmailVerified
  | Banned
  | CouldntGetComments
  | CouldntGetPosts
  | InvalidUrl
  | EmailSendFailed
  | Slurs
  | CouldntGenerateTotp
  | CouldntFindObject
  | RegistrationDenied (payload : String)
  | FederationDisabled
  | DomainBlocked
  | DomainNotInAllowList
  | FederationDisabledByStrictAllowList
  | SiteNameRequired
  | SiteNameLengthOverflow
  | PermissiveRegex
  | InvalidRegex
  | CaptchaIncorrect
  | PasswordResetLimitReached
  | CouldntCreateAudioCaptcha
  | Unknown


namespace LemmyErrorType

/-- The Rust identifier of the variant, as declared in the source. -/
def variantName : LemmyErrorType → String
  | .ReportReasonRequired => "ReportReasonRequired"
  | .ReportTooLong => "ReportTooLong"
  | .NotAModerator => "NotAModerator"
  | .NotAnAdmin => "NotAnAdmin"
  | .CantBlockYourself => "CantBlockYourself"
  | .CantBlockAdmin => "CantBlockAdmin"
  | .CouldntUpdateUser => "CouldntUpdateUser"
  | .PasswordsDoNotMatch => "PasswordsDoNotMatch"
  | .PasswordIncorrect => "PasswordIncorrect"
  | .EmailNotVerified => "EmailNotVerified"
  | .EmailRequired => "EmailRequired"
  | .CouldntUpdateComment => "CouldntUpdateComment"
  | .CouldntUpdatePrivateMessage => "CouldntUpdatePrivateMessage"
  | .CannotLeaveAdmin => "CannotLeaveAdmin"
  | .NoLinesInHtml => "NoLinesInHtml"
  | .SiteMetadataPageIsNotDoctypeHtml => "SiteMetadataPageIsNotDoctypeHtml"
  | .PictrsResponseError _ => "PictrsResponseError"
  | .PictrsPurgeResponseError _ => "PictrsPurgeResponseError"
  | .ImageUrlMissingPathSegments => "ImageUrlMissingPathSegments"
  | .ImageUrlMissingLastPathSegment => "ImageUrlMissingLastPathSegment"
  | .PictrsApiKeyNotProvided => "PictrsApiKeyNotProvided"
  | .NoContentTypeHeader => "NoContentTypeHeader"
  | .NotAnImageType => "NotAnImageType"
  | .NotAModOrAdmin => "NotAModOrAdmin"
  | .NoAdmins => "NoAdmins"
  | .NotTopAdmin => "NotTopAdmin"
  | .NotTopMod => "NotTopMod"
  | .NotLoggedIn => "NotLoggedIn"
  | .SiteBan => "SiteBan"
  | .Deleted => "Deleted"
  | .BannedFromCommunity => "BannedFromCommunity"
  | .CouldntFindCommunity => "CouldntFindCommunity"
  | .PersonIsBlocked => "PersonIsBlocked"
  | .DownvotesAreDisabled => "DownvotesAreDisabled"
  | .InstanceIsPrivate => "InstanceIsPrivate"
  | .InvalidPassword => "InvalidPassword"
  | .SiteDescriptionLengthOverflow => "SiteDescriptionLengthOverflow"
  | .HoneypotFailed => "HoneypotFailed"
  | .RegistrationApplicationIsPending => "RegistrationApplicationIsPending"
  | .CantEnablePrivateInstanceAndFederationTogether => "CantEnablePrivateInstanceAndFederationTogether"
  | .Locked => "Locked"
  | .CouldntCreateComment => "CouldntCreateComment"
  | .MaxCommentDepthReached => "MaxCommentDepthReached"
  | .NoCommentEditAllowed => "NoCommentEditAllowed"
  | .OnlyAdminsCanCreateCommunities => "OnlyAdminsCanCreateCommunities"
  | .CommunityAlreadyExists => "CommunityAlreadyExists"
  | .LanguageNotAllowed => "LanguageNotAllowed"
  | .OnlyModsCanPostInCommunity => "OnlyModsCanPostInCommunity"
  | .CouldntUpdatePost => "CouldntUpdatePost"
  | .NoPostEditAllowed => "NoPostEditAllowed"
  | .CouldntFindPost => "CouldntFindPost"
  | .EditPrivateMessageNotAllowed => "EditPrivateMessageNotAllowed"
  | .SiteAlreadyExists => "SiteAlreadyExists"
  | .ApplicationQuestionRequired => "ApplicationQuestionRequired"
  | .InvalidDefaultPostListingType => "InvalidDefaultPostListingType"
  | .RegistrationClosed => "RegistrationClosed"
  | .RegistrationApplicationAnswerRequired => "RegistrationApplicationAnswerRequired"
  | .EmailAlreadyExists => "EmailAlreadyExists"
  | .FederationForbiddenByStrictAllowList => "FederationForbiddenByStrictAllowList"
  | .PersonIsBannedFromCommunity => "PersonIsBannedFromCommunity"
  | .ObjectIsNotPublic => "ObjectIsNotPublic"
  | .InvalidCommunity => "InvalidCommunity"
  | .CannotCreatePostOrCommentInDeletedOrRemovedCommunity => "CannotCreatePostOrCommentInDeletedOrRemovedCommunity"
  | .CannotReceivePage => "CannotReceivePage"
  | .NewPostCannotBeLocked => "NewPostCannotBeLocked"
  | .OnlyLocalAdminCanRemoveCommunity => "OnlyLocalAdminCanRemoveCommunity"
  | .OnlyLocalAdminCanRestoreCommunity => "OnlyLocalAdminCanRestoreCommunity"
  | .NoIdGiven => "NoIdGiven"
  | .CouldntFindUsernameOrEmail => "CouldntFindUsernameOrEmail"
  | .InvalidQuery => "InvalidQuery"
  | .ObjectNotLocal => "ObjectNotLocal"
  | .PostIsLocked => "PostIsLocked"
  | .PersonIsBannedFromSite => "PersonIsBannedFromSite"
  | .InvalidVoteValue => "InvalidVoteValue"
  | .PageDoesNotSpecifyCreator => "PageDoesNotSpecifyCreator"
  | .PageDoesNotSpecifyGroup => "PageDoesNotSpecifyGroup"
  | .NoCommunityFoundInCc => "NoCommunityFoundInCc"
  | .NoEmailSetup => "NoEmailSetup"
  | .EmailSmtpServerNeedsAPort => "EmailSmtpServerNeedsAPort"
  | .MissingAnEmail => "MissingAnEmail"
  | .RateLimitError => "RateLimitError"
  | .InvalidName => "InvalidName"
  | .InvalidDisplayName => "InvalidDisplayName"
  | .InvalidMatrixId => "InvalidMatrixId"
  | .InvalidPostTitle => "InvalidPostTitle"
  | .InvalidBodyField => "InvalidBodyField"
  | .BioLengthOverflow => "BioLengthOverflow"
  | .MissingTotpToken => "MissingTotpToken"
  | .IncorrectTotpToken => "IncorrectTotpToken"
  | .CouldntParseTotpSecret => "CouldntParseTotpSecret"
  | .CouldntLikeComment => "CouldntLikeComment"
  | .CouldntSaveComment => "CouldntSaveComment"
  | .CouldntCreateReport => "CouldntCreateReport"
  | .CouldntResolveReport => "CouldntResolveReport"
  | .CommunityModeratorAlreadyExists => "CommunityModeratorAlreadyExists"
  | .CommunityUserAlreadyBanned => "CommunityUserAlreadyBanned"
  | .CommunityBlockAlreadyExists => "CommunityBlockAlreadyExists"
  | .CommunityFollowerAlreadyExists => "CommunityFollowerAlreadyExists"
  | .CouldntUpdateCommunityHiddenStatus => "CouldntUpdateCommunityHiddenStatus"
  | .PersonBlockAlreadyExists => "PersonBlockAlreadyExists"
  | .UserAlreadyExists => "UserAlreadyExists"
  | .TokenNotFound => "TokenNotFound"
  | .CouldntLikePost => "CouldntLikePost"
  | .CouldntSavePost => "CouldntSavePost"
  | .CouldntMarkPostAsRead => "CouldntMarkPostAsRead"
  | .CouldntUpdateCommunity => "CouldntUpdateCommunity"
  | .CouldntUpdateReplies => "CouldntUpdateReplies"
  | .CouldntUpdatePersonMentions => "CouldntUpdatePersonMentions"
  | .PostTitleTooLong => "PostTitleTooLong"
  | .CouldntCreatePost => "CouldntCreatePost"
  | .CouldntCreatePrivateMessage => "CouldntCreatePrivateMessage"
  | .CouldntUpdatePrivate => "CouldntUpdatePrivate"
  | .SystemErrLogin => "SystemErrLogin"
  | .CouldntSetAllRegistrationsAccepted => "CouldntSetAllRegistrationsAccepted"
  | .CouldntSetAllEmailVerified => "CouldntSetAllEmailVerified"
  | .Banned => "Banned"
  | .CouldntGetComments => "CouldntGetComments"
  | .CouldntGetPosts => "CouldntGetPosts"
  | .InvalidUrl => "InvalidUrl"
  | .EmailSendFailed => "EmailSendFailed"
  | .Slurs => "Slurs"
  | .CouldntGenerateTotp => "CouldntGenerateTotp"
  | .CouldntFindObject => "CouldntFindObject"
  | .RegistrationDenied _ => "RegistrationDenied"
  | .FederationDisabled => "FederationDisabled"
  | .DomainBlocked => "DomainBlocked"
  | .DomainNotInAllowList => "DomainNotInAllowList"
  | .FederationDisabledByStrictAllowList => "FederationDisabledByStrictAllowList"
  | .SiteNameRequired => "SiteNameRequired"
  | .SiteNameLengthOverflow => "SiteNameLengthOverflow"
  | .PermissiveRegex => "PermissiveRegex"
  | .InvalidRegex => "InvalidRegex"
  | .CaptchaIncorrect => "CaptchaIncorrect"
  | .PasswordResetLimitReached => "PasswordResetLimitReached"
  | .CouldntCreateAudioCaptcha => "CouldntCreateAudioCaptcha"
  | .Unknown => "Unknown"

/-- Declaration index of the variant (0-based position in the enum). -/
def idx : LemmyErrorType → Nat
  | .ReportReasonRequired => 0
  | .ReportTooLong => 1
  | .NotAModerator => 2
  | .NotAnAdmin => 3
  | .CantBlockYourself => 4
  | .CantBlockAdmin => 5
  | .CouldntUpdateUser => 6
  | .PasswordsDoNotMatch => 7
  | .PasswordIncorrect => 8
  | .EmailNotVerified => 9
  | .EmailRequired => 10
  | .CouldntUpdateComment => 11
  | .CouldntUpdatePrivateMessage => 12
  | .CannotLeaveAdmin => 13
  | .NoLinesInHtml => 14
  | .SiteMetadataPageIsNotDoctypeHtml => 15
  | .PictrsResponseError _ => 16
  | .PictrsPurgeResponseError _ => 17
  | .ImageUrlMissingPathSegments => 18
  | .ImageUrlMissingLastPathSegment => 19
  | .PictrsApiKeyNotProvided => 20
  | .NoContentTypeHeader => 21
  | .NotAnImageType => 22
  | .NotAModOrAdmin => 23
  | .NoAdmins => 24
  | .NotTopAdmin => 25
  | .NotTopMod => 26
  | .NotLoggedIn => 27
  | .SiteBan => 28
  | .Deleted => 29
  | .BannedFromCommunity => 30
  | .CouldntFindCommunity => 31
  | .PersonIsBlocked => 32
  | .DownvotesAreDisabled => 33
  | .InstanceIsPrivate => 34
  | .InvalidPassword => 35
  | .SiteDescriptionLengthOverflow => 36
  | .HoneypotFailed => 37
  | .RegistrationApplicationIsPending => 38
  | .CantEnablePrivateInstanceAndFederationTogether => 39
  | .Locked => 40
  | .CouldntCreateComment => 41
  | .MaxCommentDepthReached => 42
  | .NoCommentEditAllowed => 43
  | .OnlyAdminsCanCreateCommunities => 44
  | .CommunityAlreadyExists => 45
  | .LanguageNotAllowed => 46
  | .OnlyModsCanPostInCommunity => 47
  | .CouldntUpdatePost => 48
  | .NoPostEditAllowed => 49
  | .CouldntFindPost => 50
  | .EditPrivateMessageNotAllowed => 51
  | .SiteAlreadyExists => 52
  | .ApplicationQuestionRequired => 53
  | .InvalidDefaultPostListingType => 54
  | .RegistrationClosed => 55
  | .RegistrationApplicationAnswerRequired => 56
  | .EmailAlreadyExists => 57
  | .FederationForbiddenByStrictAllowList => 58
  | .PersonIsBannedFromCommunity => 59
  | .ObjectIsNotPublic => 60
  | .InvalidCommunity => 61
  | .CannotCreatePostOrCommentInDeletedOrRemovedCommunity => 62
  | .CannotReceivePage => 63
  | .NewPostCannotBeLocked => 64
  | .OnlyLocalAdminCanRemoveCommunity => 65
  | .OnlyLocalAdminCanRestoreCommunity => 66
  | .NoIdGiven => 67
  | .CouldntFindUsernameOrEmail => 68
  | .InvalidQuery => 69
  | .ObjectNotLocal => 70
  | .PostIsLocked => 71
  | .PersonIsBannedFromSite => 72
  | .InvalidVoteValue => 73
  | .PageDoesNotSpecifyCreator => 74
  | .PageDoesNotSpecifyGroup => 75
  | .NoCommunityFoundInCc => 76
  | .NoEmailSetup => 77
  | .EmailSmtpServerNeedsAPort => 78
  | .MissingAnEmail => 79
  | .RateLimitError => 80
  | .InvalidName => 81
  | .InvalidDisplayName => 82
  | .InvalidMatrixId => 83
  | .InvalidPostTitle => 84
  | .InvalidBodyField => 85
  | .BioLengthOverflow => 86
  | .MissingTotpToken => 87
  | .IncorrectTotpToken => 88
  | .CouldntParseTotpSecret => 89
  | .CouldntLikeComment => 90
  | .CouldntSaveComment => 91
  | .CouldntCreateReport => 92
  | .CouldntResolveReport => 93
  | .CommunityModeratorAlreadyExists => 94
  | .CommunityUserAlreadyBanned => 95
  | .CommunityBlockAlreadyExists => 96
  | .CommunityFollowerAlreadyExists => 97
  | .CouldntUpdateCommunityHiddenStatus => 98
  | .PersonBlockAlreadyExists => 99
  | .UserAlreadyExists => 100
  | .TokenNotFound => 101
  | .CouldntLikePost => 102
  | .CouldntSavePost => 103
  | .CouldntMarkPostAsRead => 104
  | .CouldntUpdateCommunity => 105
  | .CouldntUpdateReplies => 106
  | .CouldntUpdatePersonMentions => 107
  | .PostTitleTooLong => 108
  | .CouldntCreatePost => 109
  | .CouldntCreatePrivateMessage => 110
  | .CouldntUpdatePrivate => 111
  | .SystemErrLogin => 112
  | .CouldntSetAllRegistrationsAccepted => 113
  | .CouldntSetAllEmailVerified => 114
  | .Banned => 115
  | .CouldntGetComments => 116
  | .CouldntGetPosts => 117
  | .InvalidUrl => 118
  | .EmailSendFailed => 119
  | .Slurs => 120
  | .CouldntGenerateTotp => 121
  | .CouldntFindObject => 122
  | .RegistrationDenied _ => 123
  | .FederationDisabled => 124
  | .DomainBlocked => 125
  | .DomainNotInAllowList => 126
  | .FederationDisabledByStrictAllowList => 127
  | .SiteNameRequired => 128
  | .SiteNameLengthOverflow => 129
  | .PermissiveRegex => 130
  | .InvalidRegex => 131
  | .CaptchaIncorrect => 132
  | .PasswordResetLimitReached => 133
  | .CouldntCreateAudioCaptcha => 134
  | .Unknown => 135

/-- The payload string of the variant, when it has one: only
`PictrsResponseError`, `PictrsPurgeResponseError` and `RegistrationDenied`
carry a `String` payload. -/
def payload : LemmyErrorType → Option String
  | .PictrsResponseError s => some s
  | .PictrsPurgeResponseError s => some s
  | .RegistrationDenied s => some s
  | _ => none

/-- Strum's `#[derive(Display)]` with no attributes: the rendered text is the
variant identifier itself, the payload (if any) is ignored. -/
def display (t : LemmyErrorType) : String := t.variantName

/-- The stable wire tag: the serde field written under the `error` key, i.e.
the variant name under `rename_all = "snake_case"`. -/
def tag (t : LemmyErrorType) : String := snakeCase t.variantName

/-- Serde serialization under `#[serde(tag = "error", content = "message",
rename_all = "snake_case")]` (adjacently tagged): a unit variant writes only
the tag key, a newtype string variant writes the tag key then the content
key, in that order. -/
def serializeJson (t : LemmyErrorType) : String :=
  match t.payload with
  | none => "\x7b\"error\":" ++ jsonString t.tag ++ "\x7d"
  | some s => "\x7b\"error\":" ++ jsonString t.tag ++ ",\"message\":" ++ jsonString s ++ "\x7d"

/-- Variants 0 to 16 of the declaration order (enumeration chunk). -/
def iterChunk0 : List LemmyErrorType :=
  [ReportReasonRequired,
   ReportTooLong,
   NotAModerator,
   NotAnAdmin,
   CantBlockYourself,
   CantBlockAdmin,
   CouldntUpdateUser,
   PasswordsDoNotMatch,
   PasswordIncorrect,
   EmailNotVerified,
   EmailRequired,
   CouldntUpdateComment,
   CouldntUpdatePrivateMessage,
   CannotLeaveAdmin,
   NoLinesInHtml,
   SiteMetadataPageIsNotDoctypeHtml,
   PictrsResponseError ""]

/-- Variants 17 to 33 of the declaration order (enumeration chunk). -/
def iterChunk1 : List LemmyErrorType :=
  [PictrsPurgeResponseError "",
   ImageUrlMissingPathSegments,
   ImageUrlMissingLastPathSegment,
   PictrsApiKeyNotProvided,
   NoContentTypeHeader,
   NotAnImageType,
   NotAModOrAdmin,
   NoAdmins,
   NotTopAdmin,
   NotTopMod,
   NotLoggedIn,
   SiteBan,
   Deleted,
   BannedFromCommunity,
   CouldntFindCommunity,
   PersonIsBlocked,
   DownvotesAreDisabled]

/-- Variants 34 to 50 of the declaration order (enumeration chunk). -/
def iterChunk2 : List LemmyErrorType :=
  [InstanceIsPrivate,
   InvalidPassword,
   SiteDescriptionLengthOverflow,
   HoneypotFailed,
   RegistrationApplicationIsPending,
   CantEnablePrivateInstanceAndFederationTogether,
   Locked,
   CouldntCreateComment,
   MaxCommentDepthReached,
   NoCommentEditAllowed,
   OnlyAdminsCanCreateCommunities,
   CommunityAlreadyExists,
   LanguageNotAllowed,
   OnlyModsCanPostInCommunity,
   CouldntUpdatePost,
   NoPostEditAllowed,
   CouldntFindPost]

/-- Variants 51 to 67 of the declaration order (enumeration chunk). -/
def iterChunk3 : List LemmyErrorType :=
  [EditPrivateMessageNotAllowed,
   SiteAlreadyExists,
   ApplicationQuestionRequired,
   InvalidDefaultPostListingType,
   RegistrationClosed,
   RegistrationApplicationAnswerRequired,
   EmailAlreadyExists,
   FederationForbiddenByStrictAllowList,
   PersonIsBannedFromCommunity,
   ObjectIsNotPublic,
   InvalidCommunity,
   CannotCreatePostOrCommentInDeletedOrRemovedCommunity,
   CannotReceivePage,
   NewPostCannotBeLocked,
   OnlyLocalAdminCanRemoveCommunity,
   OnlyLocalAdminCanRestoreCommunity,
   NoIdGiven]

/-- Variants 68 to 84 of the declaration order (enumeration chunk). -/
def iterChunk4 : List LemmyErrorType :=
  [CouldntFindUsernameOrEmail,
   InvalidQuery,
   ObjectNotLocal,
   PostIsLocked,
   PersonIsBannedFromSite,
   InvalidVoteValue,
   PageDoesNotSpecifyCreator,
   PageDoesNotSpecifyGroup,
   NoCommunityFoundInCc,
   NoEmailSetup,
   EmailSmtpServerNeedsAPort,
   MissingAnEmail,
   RateLimitError,
   InvalidName,
   InvalidDisplayName,
   InvalidMatrixId,
   InvalidPostTitle]

/-- Variants 85 to 101 of the declaration order (enumeration chunk). -/
def iterChunk5 : List LemmyErrorType :=
  [InvalidBodyField,
   BioLengthOverflow,
   MissingTotpToken,
   IncorrectTotpToken,
   CouldntParseTotpSecret,
   CouldntLikeComment,
   CouldntSaveComment,
   CouldntCreateReport,
   CouldntResolveReport,
   CommunityModeratorAlreadyExists,
   CommunityUserAlreadyBanned,
   CommunityBlockAlreadyExists,
   CommunityFollowerAlreadyExists,
   CouldntUpdateCommunityHiddenStatus,
   PersonBlockAlreadyExists,
   UserAlreadyExists,
   TokenNotFound]

/-- Variants 102 to 118 of the declaration order (enumeration chunk). -/
def iterChunk6 : List LemmyErrorType :=
  [CouldntLikePost,
   CouldntSavePost,
   CouldntMarkPostAsRead,
   CouldntUpdateCommunity,
   CouldntUpdateReplies,
   CouldntUpdatePersonMentions,
   PostTitleTooLong,
   CouldntCreatePost,
   CouldntCreatePrivateMessage,
   CouldntUpdatePrivate,
   SystemErrLogin,
   CouldntSetAllRegistrationsAccepted,
   CouldntSetAllEmailVerified,
   Banned,
   CouldntGetComments,
   CouldntGetPosts,
   InvalidUrl]

/-- Variants 119 to 135 of the declaration order (enumeration chunk). -/
def iterChunk7 : List LemmyErrorType :=
  [EmailSendFailed,
   Slurs,
   CouldntGenerateTotp,
   CouldntFindObject,
   RegistrationDenied "",
   FederationDisabled,
   DomainBlocked,
   DomainNotInAllowList,
   FederationDisabledByStrictAllowList,
   SiteNameRequired,
   SiteNameLengthOverflow,
   PermissiveRegex,
   InvalidRegex,
   CaptchaIncorrect,
   PasswordResetLimitReached,
   CouldntCreateAudioCaptcha,
   Unknown]

/-- Strum's `#[derive(EnumIter)]`: all variants in declaration order, payload
variants instantiated with `String::default()` (the empty string). -/
def iter : List LemmyErrorType :=
  iterChunk0 ++ iterChunk1 ++ iterChunk2 ++ iterChunk3 ++ iterChunk4 ++ iterChunk5 ++ iterChunk6 ++ iterChunk7

end LemmyErrorType

/-- The `diesel::result::Error` type of the persistence layer, as far as this
subsystem observes it: the `NotFound` variant is the "record not found"
marker the responder downcasts for; every other variant is collapsed into
`DatabaseError` carrying its display text. -/
inductive DieselError where
  | NotFound
  | DatabaseError (msg : String)
deriving DecidableEq

/-- Display text of a diesel error (`NotFound` renders as "Record not
found"). -/
def DieselError.display : DieselError → String
  | .NotFound => "Record not found"
  | .DatabaseError msg => msg

/-- A type-erased `anyhow::Error` cause, modelled by what the subsystem can
observe of it: `fromDiesel` wraps a `diesel::result::Error` (the only type the
responder ever downcasts to), `fromMessage` is an ad-hoc error built by the
`anyhow!` macro from a message string, and `fromOther` is any other wrapped
error type, carrying its Display text and its alternate Debug rendering
(which includes the causal chain anyhow prints). -/
inductive AnyhowError where
  | fromDiesel (e : DieselError)
  | fromMessage (s : String)
  | fromOther (displayStr debugStr : String)
deriving DecidableEq

/-- The `anyhow::Error::downcast_ref::<diesel::result::Error>()` capability
check used by the responder. -/
def AnyhowError.downcastDiesel : AnyhowError → Option DieselError
  | .fromDiesel e => some e
  | _ => none

/-- Display rendering of the anyhow error (`self.inner.to_string()`). -/
def AnyhowError.displayText : AnyhowError → String
  | .fromDiesel e => e.display
  | .fromMessage s => s
  | .fromOther d _ => d

/-- Debug rendering of the anyhow error, what Rust prints for the format
specifier "\x7b:?\x7d": the error message followed by any causal chain the
underlying error exposes. -/
def AnyhowError.debugText : AnyhowError → String
  | .fromDiesel e => e.display
  | .fromMessage s => s
  | .fromOther _ d => d

/-- A captured `tracing_error::SpanTrace` diagnostic snapshot, modelled by
its rendered text. -/
structure SpanTrace where
  text : String

/-- The unified error container `LemmyError` (error.rs lines 12-16). -/
structure LemmyError where
  error_type : Option LemmyErrorType
  inner : AnyhowError
  context : SpanTrace

/-- The constructor `LemmyError::from_error_and_type` (error.rs lines 20-29);
`ctx` stands for the `SpanTrace::capture()` result at the construction
site. -/
def LemmyError.from_error_and_type (error : AnyhowError)
    (error_type : LemmyErrorType) (ctx : SpanTrace) : LemmyError :=
  { error_type := some error_type, inner := error, context := ctx }

/-- The method `LemmyError::with_type` (error.rs lines 32-37): replace the
kind, carry every other field over via `..self`. -/
def LemmyError.with_type (self : LemmyError) (error_type : LemmyErrorType) :
    LemmyError :=
  { self with error_type := some error_type }

/-- The blanket `impl From<T> for LemmyError` for any `T: Into<anyhow::Error>`
(error.rs lines 40-51): the unclassified construction path. -/
def LemmyError.fromAny (t : AnyhowError) (ctx : SpanTrace) : LemmyError :=
  { error_type := none, inner := t, context := ctx }

/-- The conversion `impl From<LemmyErrorType> for LemmyError` (error.rs lines
240-249): the cause is synthesized by `anyhow!` from the kind's own Display
text. -/
def LemmyError.fromErrorType (error_type : LemmyErrorType) (ctx : SpanTrace) :
    LemmyError :=
  { error_type := some error_type,
    inner := AnyhowError.fromMessage error_type.display,
    context := ctx }

/-- The operator-facing `impl Display for LemmyError` (error.rs lines 63-75):
an optional "<kind>: " prefix, then the Debug rendering of the cause followed
by a newline (writeln), then the rendered context. -/
def LemmyError.displayText (e : LemmyError) : String :=
  (match e.error_type with
   | some message => message.display ++ ": "
   | none => "") ++ e.inner.debugText ++ "\n" ++ e.context.text

/-- The responder's `status_code` (error.rs lines 78-83), as a numeric HTTP
status: 404 exactly when the cause downcasts to
`diesel::result::Error::NotFound`, otherwise 400. -/
def LemmyError.status_code (e : LemmyError) : Nat :=
  match e.inner.downcastDiesel with
  | some DieselError.NotFound => 404
  | _ => 400

/-- An actix `HttpResponse`, as far as `error_response` constructs one: a
status, a content type, and a body. -/
structure HttpResponse where
  status : Nat
  contentType : String
  body : String
deriving DecidableEq

/-- The responder's `error_response` (error.rs lines 85-93): the
JSON-serialized kind when one is present, otherwise the plain-text Display of
the cause with content type text/plain. -/
def LemmyError.error_response (e : LemmyError) : HttpResponse :=
  match e.error_type with
  | some message =>
    { status := e.status_code, contentType := "application/json",
      body := message.serializeJson }
  | none =>
    { status := e.status_code, contentType := "text/plain",
      body := e.inner.displayText }

/-- Modelled from the spec: the aggregate counter snapshot row (the struct
`CommunityAggregates` is declared in db_schema's aggregates/structs.rs, which
is not among the sources under study) — per-community counters keyed by the
community identifier. -/
structure CommunityAggregates where
  community_id : Nat
  subscribers : Int
  posts : Int
  comments : Int
deriving DecidableEq

/-- The accessor `CommunityAggregates::read` (community_aggregates.rs lines
9-13) over a modelled table state: diesel's `filter(community_id.eq(id))`
keeps the matching rows and `first` returns the first of them, or
`Err(diesel::result::Error::NotFound)` when none matches. -/
def CommunityAggregates.read (table : List CommunityAggregates)
    (community_id : Nat) : Except DieselError CommunityAggregates :=
  match table.filter (fun r => r.community_id == community_id) with
  | [] => Except.error DieselError.NotFound
  | r :: _ => Except.ok r

/-- The wire tags contain no character that serde_json escapes, so rendering a
tag as a JSON string literal just wraps it in quotes. -/
theorem jsonString_tag (t : LemmyErrorType) :
    jsonString t.tag = "\"" ++ t.tag ++ "\"" := by
  cases t <;> exact of_decide_eq_true rfl

/-- Prepending the fixed error-key header to a quoted tag, written the way
`serializeJson` builds it, equals the same text written with the quotes
merged into the literals. -/
theorem tag_only_eq (t : LemmyErrorType) :
    "\x7b\"error\":" ++ jsonString t.tag ++ "\x7d" =
      "\x7b\"error\":\"" ++ t.tag ++ "\"\x7d" := by
  cases t <;> exact of_decide_eq_true rfl

/-- Same merging for the payload shape, up to and including the message
key. -/
theorem tag_header_eq (t : LemmyErrorType) :
    "\x7b\"error\":" ++ jsonString t.tag ++ ",\"message\":" =
      "\x7b\"error\":\"" ++ t.tag ++ "\",\"message\":" := by
  cases t <;> exact of_decide_eq_true rfl

/-- Claim C2: serialization is bit-exact with fixed key names and key order:
no-payload variants render as error-tag-only objects, payload variants add
the message key after the error key, and RegistrationDenied("reason")
renders exactly as the expected byte string. -/
theorem serialization_bit_exact (t : LemmyErrorType) (s : String) :
    (t.payload = none →
        t.serializeJson = "\x7b\"error\":\"" ++ t.tag ++ "\"\x7d") ∧
    (t.payload = some s →
        t.serializeJson =
          "\x7b\"error\":\"" ++ t.tag ++ "\",\"message\":" ++ jsonString s ++
            "\x7d") ∧
    (LemmyErrorType.RegistrationDenied "reason").serializeJson =
      "\x7b\"error\":\"registration_denied\",\"message\":\"reason\"\x7d" := by
  refine ⟨fun h => ?_, fun h => ?_, by decide⟩
  · simp only [LemmyErrorType.serializeJson, h]
    exact tag_only_eq t
  · simp only [LemmyErrorType.serializeJson, h]
    rw [tag_header_eq t]

/-- Witness for C2 at concrete inputs. -/
theorem serialization_bit_exact_witness :
    LemmyErrorType.Banned.serializeJson = "\x7b\"error\":\"banned\"\x7d" ∧
    (LemmyErrorType.RegistrationDenied "reason").serializeJson =
      "\x7b\"error\":\"registration_denied\",\"message\":\"reason\"\x7d" :=
  ⟨((serialization_bit_exact LemmyErrorType.Banned "reason").1 rfl).trans
      (by decide),
   ((serialization_bit_exact (LemmyErrorType.RegistrationDenied "reason")
        "reason").2.1 rfl).trans (by decide)⟩

/-- Claim C1: the responder's status selection depends only on whether the
cause downcasts to the persistence layer's NotFound marker: 404 when it does,
400 otherwise, regardless of what kind (if any) is set on the container. -/
theorem status_code_two_bucket (e : LemmyError) (k : Option LemmyErrorType) :
    (e.inner.downcastDiesel = some DieselError.NotFound →
        e.status_code = 404) ∧
    (e.inner.downcastDiesel ≠ some DieselError.NotFound →
        e.status_code = 400) ∧
    (LemmyError.mk k e.inner e.context).status_code = e.status_code := by
  refine ⟨fun h => ?_, fun h => ?_, rfl⟩
  · simp [LemmyError.status_code, h]
  · rcases hd : e.inner.downcastDiesel with _ | d
    · simp [LemmyError.status_code, hd]
    · cases d
      · exact absurd hd h
      · simp [LemmyError.status_code, hd]

/-- Witness for C1 at concrete containers. -/
theorem status_code_two_bucket_witness :
    (LemmyError.mk none (AnyhowError.fromDiesel DieselError.NotFound)
        ⟨"trace"⟩).status_code = 404 ∧
    (LemmyError.mk (some LemmyErrorType.CouldntFindPost)
        (AnyhowError.fromMessage "boom") ⟨"trace"⟩).status_code = 400 :=
  ⟨(status_code_two_bucket
      ⟨none, AnyhowError.fromDiesel DieselError.NotFound, ⟨"trace"⟩⟩
      none).1 rfl,
   (status_code_two_bucket
      ⟨some LemmyErrorType.CouldntFindPost, AnyhowError.fromMessage "boom",
        ⟨"trace"⟩⟩ none).2.1 (by decide)⟩

/-- Claim C3: body selection — when a kind is present the body is the
JSON-serialized kind, when absent it is the plain-text Display of the cause
with content type text/plain. -/
theorem error_response_body (e : LemmyError) (k : LemmyErrorType) :
    (e.error_type = some k →
        e.error_response =
          ⟨e.status_code, "application/json", k.serializeJson⟩) ∧
    (e.error_type = none →
        e.error_response =
          ⟨e.status_code, "text/plain", e.inner.displayText⟩) := by
  constructor <;> intro h <;> simp [LemmyError.error_response, h]

/-- Witness for C3 at concrete containers. -/
theorem error_response_body_witness :
    (LemmyError.mk (some LemmyErrorType.Banned) (AnyhowError.fromMessage "m")
        ⟨""⟩).error_response =
      ⟨400, "application/json", "\x7b\"error\":\"banned\"\x7d"⟩ ∧
    (LemmyError.mk none (AnyhowError.fromMessage "m") ⟨""⟩).error_response =
      ⟨400, "text/plain", "m"⟩ :=
  ⟨((error_response_body
        ⟨some LemmyErrorType.Banned, AnyhowError.fromMessage "m", ⟨""⟩⟩
        LemmyErrorType.Banned).1 rfl).trans (by decide),
   ((error_response_body ⟨none, AnyhowError.fromMessage "m", ⟨""⟩⟩
        LemmyErrorType.Banned).2 rfl).trans (by decide)⟩

/-- Claim C4: with-kind replaces the kind and carries cause and context over
unchanged; applied twice, only the second kind remains and cause and context
still equal those of the original container. -/
theorem with_type_frame (c : LemmyError) (K1 K2 : LemmyErrorType) :
    ((c.with_type K1).error_type = some K1 ∧
      (c.with_type K1).inner = c.inner ∧
      (c.with_type K1).context = c.context) ∧
    (((c.with_type K1).with_type K2).error_type = some K2 ∧
      ((c.with_type K1).with_type K2).inner = c.inner ∧
      ((c.with_type K1).with_type K2).context = c.context) :=
  ⟨⟨rfl, rfl, rfl⟩, ⟨rfl, rfl, rfl⟩⟩

/-- Claim C5: from-kind sets the kind, synthesizes a cause whose message is
exactly the kind's own display text, and stores the context captured at
construction. -/
theorem from_kind_spec (K : LemmyErrorType) (ctx : SpanTrace) :
    (LemmyError.fromErrorType K ctx).error_type = some K ∧
    (LemmyError.fromErrorType K ctx).inner =
      AnyhowError.fromMessage K.display ∧
    (LemmyError.fromErrorType K ctx).inner.displayText = K.display ∧
    (LemmyError.fromErrorType K ctx).context = ctx :=
  ⟨rfl, rfl, rfl, rfl⟩

/-- Claim C6: only the blanket unclassified conversion leaves the kind unset;
wrap-classified, from-kind and with-kind all set it to a Some value. -/
theorem kind_none_only_unclassified (t err : AnyhowError)
    (K : LemmyErrorType) (c : LemmyError) (ctx : SpanTrace) :
    (LemmyError.fromAny t ctx).error_type = none ∧
    (LemmyError.from_error_and_type err K ctx).error_type.isSome = true ∧
    (LemmyError.fromErrorType K ctx).error_type.isSome = true ∧
    ((c.with_type K).error_type).isSome = true :=
  ⟨rfl, rfl, rfl, rfl⟩

/-- Claim C7: the operator-facing Display renders the "<kind>: " prefix
exactly when a kind is present, always followed by the Debug rendering of the
cause, then the captured context text after a newline. -/
theorem display_contract (e : LemmyError) (k : LemmyErrorType) :
    (e.error_type = some k →
        e.displayText =
          k.display ++ ": " ++ e.inner.debugText ++ "\n" ++ e.context.text) ∧
    (e.error_type = none →
        e.displayText = e.inner.debugText ++ "\n" ++ e.context.text) := by
  constructor <;> intro h <;>
    simp [LemmyError.displayText, h, String.empty_append]

/-- Witness for C7 at concrete containers. -/
theorem display_contract_witness :
    (LemmyError.mk (some LemmyErrorType.Banned)
        (AnyhowError.fromOther "d" "dbg") ⟨"ctx"⟩).displayText =
      "Banned: dbg\nctx" ∧
    (LemmyError.mk none (AnyhowError.fromOther "d" "dbg")
        ⟨"ctx"⟩).displayText = "dbg\nctx" :=
  ⟨((display_contract
        ⟨some LemmyErrorType.Banned, AnyhowError.fromOther "d" "dbg", ⟨"ctx"⟩⟩
        LemmyErrorType.Banned).1 rfl).trans (by decide),
   ((display_contract ⟨none, AnyhowError.fromOther "d" "dbg", ⟨"ctx"⟩⟩
        LemmyErrorType.Banned).2 rfl).trans (by decide)⟩

set_option maxRecDepth 8192 in
/-- Claim C8: enumerating the taxonomy yields a non-empty, duplicate-free
list, in declaration order, whose length is the declared variant count
136. -/
theorem taxonomy_enumeration :
    LemmyErrorType.iter ≠ [] ∧
    LemmyErrorType.iter.Nodup ∧
    LemmyErrorType.iter.length = 136 ∧
    LemmyErrorType.iter.map LemmyErrorType.idx = List.range 136 := by
  have hmap : LemmyErrorType.iter.map LemmyErrorType.idx = List.range 136 :=
    by decide
  have hlen : LemmyErrorType.iter.length = 136 := by decide
  refine ⟨?_,
    List.Nodup.of_map LemmyErrorType.idx (hmap ▸ List.nodup_range 136),
    hlen, hmap⟩
  intro hnil
  rw [hnil] at hlen
  simp at hlen

/-- The accessor returns diesel's NotFound error whenever no row of the table
carries the requested community id. -/
theorem read_notFound_of_no_row (table : List CommunityAggregates) (id : Nat)
    (h : ∀ r ∈ table, r.community_id ≠ id) :
    CommunityAggregates.read table id = Except.error DieselError.NotFound := by
  unfold CommunityAggregates.read
  have hf : table.filter (fun r => r.community_id == id) = [] := by
    rw [List.filter_eq_nil_iff]
    intro r hr
    simpa using h r hr
  rw [hf]

/-- Claim C9: the aggregate fetch succeeds with a current snapshot row
exactly when a row for the identifier exists, and fails with diesel's
NotFound classification when none does, including after every row of the
owning community has been cascade-removed. -/
theorem community_aggregates_read_spec (table : List CommunityAggregates)
    (id : Nat) :
    ((∀ r ∈ table, r.community_id ≠ id) →
        CommunityAggregates.read table id =
          Except.error DieselError.NotFound) ∧
    ((∃ r ∈ table, r.community_id = id) →
        ∃ r, CommunityAggregates.read table id = Except.ok r ∧
          r ∈ table ∧ r.community_id = id) ∧
    CommunityAggregates.read
        (table.filter (fun r => r.community_id != id)) id =
      Except.error DieselError.NotFound := by
  refine ⟨read_notFound_of_no_row table id, fun hex => ?_, ?_⟩
  · rcases hex with ⟨r0, hr0, hid0⟩
    rcases hf : table.filter (fun r => r.community_id == id) with _ | ⟨r, rest⟩
    · exfalso
      have hmem : r0 ∈ table.filter (fun r => r.community_id == id) := by
        rw [List.mem_filter]
        exact ⟨hr0, by simpa using hid0⟩
      rw [hf] at hmem
      simp at hmem
    · have hr : r ∈ table.filter (fun r => r.community_id == id) := by
        rw [hf]
        exact List.mem_cons_self r rest
      rw [List.mem_filter] at hr
      refine ⟨r, ?_, hr.1, by simpa using hr.2⟩
      unfold CommunityAggregates.read
      rw [hf]
  · apply read_notFound_of_no_row
    intro r hr
    rw [List.mem_filter] at hr
    simpa using hr.2

/-- Witness for C9 on a concrete one-row table. -/
theorem community_aggregates_read_witness :
    (∃ r, CommunityAggregates.read [⟨7, 2, 1, 2⟩] 7 = Except.ok r ∧
        r ∈ [(⟨7, 2, 1, 2⟩ : CommunityAggregates)] ∧ r.community_id = 7) ∧
    CommunityAggregates.read [⟨7, 2, 1, 2⟩] 9 =
      Except.error DieselError.NotFound :=
  ⟨(community_aggregates_read_spec [⟨7, 2, 1, 2⟩] 7).2.1
      ⟨⟨7, 2, 1, 2⟩, by decide, rfl⟩,
   (community_aggregates_read_spec [⟨7, 2, 1, 2⟩] 9).1 (by decide)⟩

/-- Claim C10: a container built by from-kind always classifies to the
bad-request status 400 — never 404 — because the cause synthesized from the
kind's display text never downcasts to the diesel NotFound marker, even for
kinds naming not-found conditions such as CouldntFindCommunity and
CouldntFindPost. -/
theorem from_kind_always_bad_request (K : LemmyErrorType) (ctx : SpanTrace) :
    (LemmyError.fromErrorType K ctx).status_code = 400 ∧
    (LemmyError.fromErrorType K ctx).inner.downcastDiesel = none ∧
    (LemmyError.fromErrorType LemmyErrorType.CouldntFindCommunity
        ⟨""⟩).status_code = 400 ∧
    (LemmyError.fromErrorType LemmyErrorType.CouldntFindPost
        ⟨""⟩).status_code = 400 :=
  ⟨rfl, rfl, rfl, rfl⟩

end Lemmy
